import Mathlib

/-!
Verification of the Real-Time-Translation pipeline (src/main.py).

The development shallowly embeds the pipeline logic of `TranslatorApp`
(src/main.py): signal conditioning (`normalize_audio`), the shared
`queue.Queue` between the capture thread and the translation thread, the
lifecycle entry points `start_translation` / `stop_translation`, one loop
iteration of `capture_audio` and of `translate_continuously`, and the
result mapping performed by `translate_speech`.

Modelling conventions:
* Audio samples are exact rationals (the Python code works on numpy
  float64 arrays; the claims under study are algebraic, not about
  rounding).
* A `Chunk` is one conditioned audio chunk, the element type of the
  shared queue.
* GUI widgets are reduced to the fields the pipeline logic reads or
  writes: the translated-text label (`labelText`, an `Option String`
  because Python may pass `None` to `update_translation`), the status
  label text and its style sheet string.  Logging and `save_config`
  (pure I/O, never read back by the pipeline logic) are not modelled.
* Python thread objects are modelled by a counter `threadsSpawned` of
  worker-thread pairs created so far; `0` means the attributes
  `capture_thread` / `translation_thread` do not exist yet, which is
  what `stop_translation` trips over on a never-started app.
* An exception raised by a Python statement is modelled with `Except`;
  the error value carries the message and, where relevant, the state as
  already mutated before the raise.
-/

/-- One audio chunk: a finite sequence of samples, as handed between the
capture and translation workers. -/
abbrev Chunk := List ℚ

/-- `np.max(np.abs(audio_data))` from `normalize_audio` (src/main.py:31),
embedded as a left fold of `max` over the absolute samples starting from
`0`.  For the chunks the pipeline produces (fixed size 1024, never
empty) this agrees with numpy; on `[]` numpy would raise, while the fold
returns `0` and the guard below makes `normalize_audio [] = []`. -/
def maxAbs (xs : List ℚ) : ℚ :=
  xs.foldl (fun m s => max m |s|) 0

/-- `normalize_audio` (src/main.py:30-32):
`return audio_data / max_val if max_val != 0 else audio_data`. -/
def normalize_audio (audio_data : List ℚ) : List ℚ :=
  let max_val := maxAbs audio_data
  if max_val ≠ 0 then audio_data.map (fun s => s / max_val) else audio_data

lemma foldl_maxAbs_init_le (xs : List ℚ) (a : ℚ) :
    a ≤ xs.foldl (fun m s => max m |s|) a := by
  induction xs generalizing a with
  | nil => simp
  | cons x xs ih =>
    simpa using le_trans (le_max_left a |x|) (ih (max a |x|))

lemma maxAbs_nonneg (xs : List ℚ) : 0 ≤ maxAbs xs :=
  foldl_maxAbs_init_le xs 0

lemma abs_le_foldl_maxAbs (xs : List ℚ) (a : ℚ) {s : ℚ} (hs : s ∈ xs) :
    |s| ≤ xs.foldl (fun m t => max m |t|) a := by
  induction xs generalizing a with
  | nil => cases hs
  | cons x xs ih =>
    rcases List.mem_cons.mp hs with h | h
    · subst h
      simpa using le_trans (le_max_right a |s|)
        (foldl_maxAbs_init_le xs (max a |s|))
    · simpa using ih (max a |x|) h

lemma abs_le_maxAbs (xs : List ℚ) {s : ℚ} (hs : s ∈ xs) : |s| ≤ maxAbs xs :=
  abs_le_foldl_maxAbs xs 0 hs

lemma maxAbs_of_all_zero (xs : List ℚ) (h : ∀ s ∈ xs, s = 0) :
    maxAbs xs = 0 := by
  induction xs with
  | nil => rfl
  | cons x xs ih =>
    have hx : x = 0 := h x (List.mem_cons_self x xs)
    have hrest : maxAbs xs = 0 := ih fun s hs => h s (List.mem_cons_of_mem _ hs)
    simpa [maxAbs, hx] using hrest

lemma maxAbs_pos_of_ne_zero {xs : List ℚ} (h : maxAbs xs ≠ 0) :
    0 < maxAbs xs :=
  lt_of_le_of_ne (maxAbs_nonneg xs) (Ne.symm h)

lemma foldl_maxAbs_map_div (xs : List ℚ) {c : ℚ} (hc : 0 < c) (a : ℚ) :
    (xs.map (fun s => s / c)).foldl (fun m t => max m |t|) (a / c)
      = (xs.foldl (fun m t => max m |t|) a) / c := by
  induction xs generalizing a with
  | nil => simp
  | cons x xs ih =>
    simp only [List.map_cons, List.foldl_cons]
    have h1 : max (a / c) |x / c| = max a |x| / c := by
      rw [abs_div, abs_of_pos hc, max_div_div_right (le_of_lt hc)]
    rw [h1, ih]

lemma maxAbs_map_div (xs : List ℚ) {c : ℚ} (hc : 0 < c) :
    maxAbs (xs.map (fun s => s / c)) = maxAbs xs / c := by
  have h := foldl_maxAbs_map_div xs hc 0
  simpa [maxAbs, zero_div] using h

lemma maxAbs_normalize {xs : List ℚ} (h : maxAbs xs ≠ 0) :
    maxAbs (normalize_audio xs) = 1 := by
  have hc := maxAbs_pos_of_ne_zero h
  rw [normalize_audio]
  simp only [h, if_pos, ne_eq, not_false_iff]
  rw [maxAbs_map_div xs hc, div_self h]

lemma normalize_of_maxAbs_eq_one {xs : List ℚ} (h : maxAbs xs = 1) :
    normalize_audio xs = xs := by
  rw [normalize_audio]
  simp [h]

lemma normalize_of_maxAbs_eq_zero {xs : List ℚ} (h : maxAbs xs = 0) :
    normalize_audio xs = xs := by
  rw [normalize_audio]
  simp [h]

/-- Claim C7: peak normalization divides every sample by the chunk's
maximum absolute value; an all-zero chunk passes through unchanged (no
division by zero); a chunk whose maximum absolute sample is already `1`
passes through unchanged; and normalization is idempotent on every
chunk. -/
theorem C7_normalize_peak_properties (x : List ℚ) :
    ((∀ s ∈ x, s = 0) → normalize_audio x = x) ∧
    (maxAbs x = 1 → normalize_audio x = x) ∧
    (maxAbs x ≠ 0 → normalize_audio x = x.map (fun s => s / maxAbs x)) ∧
    normalize_audio (normalize_audio x) = normalize_audio x := by
  refine ⟨?_, ?_, ?_, ?_⟩
  · intro h
    exact normalize_of_maxAbs_eq_zero (maxAbs_of_all_zero x h)
  · intro h
    exact normalize_of_maxAbs_eq_one h
  · intro h
    rw [normalize_audio]
    simp [h]
  · by_cases h : maxAbs x = 0
    · rw [normalize_of_maxAbs_eq_zero h, normalize_of_maxAbs_eq_zero h]
    · exact normalize_of_maxAbs_eq_one (maxAbs_normalize h)

/-- Witness for C7 at the concrete chunks `[0, 0]` (all-zero pass-through)
and `[2, -1]` (division by the peak and idempotence). -/
theorem C7_normalize_peak_properties_witness :
    normalize_audio [(0 : ℚ), 0] = [0, 0] ∧
    normalize_audio [(2 : ℚ), -1] = [1, -1/2] ∧
    normalize_audio (normalize_audio [(2 : ℚ), -1])
      = normalize_audio [(2 : ℚ), -1] := by
  refine ⟨(C7_normalize_peak_properties [0, 0]).1 (by decide), ?_, ?_⟩
  · have h := (C7_normalize_peak_properties [2, -1]).2.2.1 (by decide)
    rw [h]
    norm_num [maxAbs]
  · exact (C7_normalize_peak_properties [2, -1]).2.2.2

/-! ## Shared queue (`queue.Queue`, src/main.py:99)

`TranslatorApp.__init__` creates `queue.Queue()` with CPython's default
`maxsize=0`.  In CPython's `queue` module a `put` blocks exactly when
`0 < maxsize` and the queue already holds at least `maxsize` items;
with `maxsize = 0` the queue is unbounded and `put` always appends
immediately.  `get` removes from the front (FIFO). -/

/-- The `maxsize` of the queue created by `queue.Queue()` in
`TranslatorApp.__init__` (src/main.py:99): CPython's default `0`,
meaning unbounded. -/
def queueMaxsize : Nat := 0

/-- CPython `Queue.put` blocking condition: blocks iff `maxsize` is
positive and the queue already holds `maxsize` items. -/
def putWouldBlock (q : List Chunk) : Prop :=
  0 < queueMaxsize ∧ queueMaxsize ≤ q.length

instance (q : List Chunk) : Decidable (putWouldBlock q) := by
  unfold putWouldBlock; infer_instance

/-- `Queue.put`: append at the back (src/main.py:271). -/
def queuePut (q : List Chunk) (c : Chunk) : List Chunk := q ++ [c]

/-! ## Application state (`TranslatorApp`, src/main.py:94-230) -/

/-- The fields of `TranslatorApp` that the pipeline logic reads or
writes.  `labelText` is the text last passed to `update_translation`
(shown on both `self.label` and `self.subtitle_overlay`); it is an
`Option` because `translate_speech` can return Python `None`.
`threadsSpawned` counts the worker-thread pairs created by
`start_translation` so far; `0` models a fresh app on which the
attributes `capture_thread` / `translation_thread` do not yet exist. -/
structure AppState where
  running : Bool
  audio_queue : List Chunk
  inputLanguage : String
  outputLanguage : String
  deviceIndex : Option Nat
  labelText : Option String
  statusText : String
  statusStyle : String
  threadsSpawned : Nat
deriving DecidableEq, Repr

/-- The state right after `TranslatorApp.__init__` (src/main.py:95-100):
not running, empty queue, no worker threads yet.  The language texts and
the selected device come from `load_config` / the combo box and are
parameters here (with no config file on disk, both language fields are
the empty string, since placeholders are not text). -/
def initState (inL outL : String) (dev : Option Nat) : AppState :=
  { running := false
    audio_queue := []
    inputLanguage := inL
    outputLanguage := outL
    deviceIndex := dev
    labelText := some "Translation will appear here"
    statusText := "Status: Stopped"
    statusStyle := "font-size: 14px; color: red;"
    threadsSpawned := 0 }

/-- `start_translation` (src/main.py:213-222): unconditionally sets
`running = True`, updates the status label, and creates and starts a
fresh capture thread and translation thread.  There is no state check,
no validation, and no error path.  (`save_config` and logging are I/O
and not modelled.) -/
def start_translation (s : AppState) : AppState :=
  { s with
    running := true
    statusText := "Status: Running"
    statusStyle := "color: green;"
    threadsSpawned := s.threadsSpawned + 1 }

/-- `stop_translation` (src/main.py:224-230): sets `running = False`,
then joins `self.capture_thread` and `self.translation_thread`.  On an
app that was never started those attributes do not exist, so the join
raises `AttributeError` after `running` has already been cleared; the
error value carries the state as mutated at the raise.  Otherwise the
joins return (joining a finished thread is a no-op) and the status
label is reset. -/
def stop_translation (s : AppState) : Except (String × AppState) AppState :=
  let s1 := { s with running := false }
  if s1.threadsSpawned = 0 then
    Except.error
      ("AttributeError: TranslatorApp object has no attribute capture_thread", s1)
  else
    Except.ok { s1 with statusText := "Status: Stopped", statusStyle := "color: red;" }

/-- `update_translation` (src/main.py:232-234): show the text on the
main label and the subtitle overlay. -/
def update_translation (s : AppState) (text : Option String) : AppState :=
  { s with labelText := text }

/-! ## Translation backend (`translate_speech`, src/main.py:292-318) -/

/-- The cases of `speechsdk.ResultReason` that `translate_speech`
distinguishes; `OtherReason` stands for every further member of the SDK
enum (e.g. `RecognizedSpeech`), which the if/elif chain does not
handle. -/
inductive ResultReason where
  | TranslatedSpeech
  | NoMatch
  | Canceled
  | OtherReason
deriving DecidableEq, Repr

/-- The backend's `recognize_once()` result object, with the fields the
code reads.  `translations` models the dictionary
`result.translations[lang]` as a total lookup; a missing key would raise
`KeyError`, which the surrounding `try` turns into the `raised` case
below. -/
structure RecognitionResult where
  reason : ResultReason
  text : String
  translations : String → String
  cancellationReason : String

/-- What the backend call produces: either a result object, or an
exception raised anywhere inside the `try` block of `translate_speech`
(SDK construction, the network call, or the dictionary lookup). -/
inductive BackendResponse where
  | result (r : RecognitionResult)
  | raised (msg : String)

/-- The request `translate_speech` configures for the backend
(src/main.py:294-302): subscription key, region, recognition language
from the input-language field, target language from the output-language
field — and `AudioConfig(use_default_microphone=True)`.  The
`audio_chunk` parameter is accepted, as in the source, and ignored:
no field of the request depends on it. -/
structure TranslationRequest where
  subscriptionKey : String
  region : String
  speechRecognitionLanguage : String
  targetLanguage : String
  useDefaultMicrophone : Bool
deriving DecidableEq, Repr

/-- Request construction inside `translate_speech` (src/main.py:294-302). -/
def buildRequest (inputLanguage outputLanguage : String) (audio_chunk : Chunk) :
    TranslationRequest :=
  { subscriptionKey := "YourAzureSubscriptionKey"
    region := "YourServiceRegion"
    speechRecognitionLanguage := inputLanguage
    targetLanguage := outputLanguage
    useDefaultMicrophone := true }

/-- `translate_speech` (src/main.py:292-318), given what the backend
call produced.  The if/elif chain handles `TranslatedSpeech`, `NoMatch`
and `Canceled`; any other reason falls off the end of the function and
returns Python `None` (`Option.none`).  Exceptions are caught and turned
into an error string. -/
def translate_speech (inputLanguage outputLanguage : String)
    (resp : BackendResponse) : Option String :=
  match resp with
  | .raised msg => some ("Error in speech recognition: " ++ msg)
  | .result r =>
    match r.reason with
    | .TranslatedSpeech => some (r.translations outputLanguage)
    | .NoMatch => some "No speech could be recognized."
    | .Canceled => some ("Speech Recognition canceled: " ++ r.cancellationReason)
    | .OtherReason => none

/-! ## Worker loop bodies -/

/-- One iteration of the `while self.running` loop of
`translate_continuously` (src/main.py:281-290), given what the backend
produces for this iteration.  The body first polls
`self.audio_queue.empty()`; if the queue is empty it does nothing and
control returns to the loop guard.  Otherwise it pops one chunk
(`get`), calls `translate_speech` (which passes the chunk but, see
`buildRequest`, the backend listens to the default microphone), and
hands the returned value to `update_translation`. -/
def translateStep (s : AppState) (resp : BackendResponse) : AppState :=
  if s.audio_queue.isEmpty then s
  else
    update_translation { s with audio_queue := s.audio_queue.tail }
      (translate_speech s.inputLanguage s.outputLanguage resp)

/-- The device check at the top of `capture_audio` (src/main.py:254-256):
`currentData()` returning `None` (no device selected) raises inside the
worker thread; the exception is caught at src/main.py:277-279, an error
dialog is shown, and the capture worker terminates.  This runs only
after `start_translation` has already spawned both workers. -/
def capture_device_check (s : AppState) : Except String Unit :=
  match s.deviceIndex with
  | none => Except.error "Selected audio device not found."
  | some _ => Except.ok ()

/-- One iteration of the `while self.running` loop of `capture_audio`
(src/main.py:266-271): read a raw chunk from the stream, band-pass
filter it (scipy `lfilter`, an opaque pure transform here), peak
normalize it, and `put` it on the shared queue. -/
def capture_iteration (s : AppState) (raw : List ℤ)
    (bandpass : List ℤ → Chunk) : AppState :=
  { s with audio_queue := queuePut s.audio_queue (normalize_audio (bandpass raw)) }

/-- Backend responses the spec classifies as per-chunk failures: the
backend call raised, was canceled, or recognized no speech. -/
def isFailureResponse : BackendResponse → Prop
  | .raised _ => True
  | .result r => r.reason = .NoMatch ∨ r.reason = .Canceled

/-- A backend response whose reason the if/elif chain of
`translate_speech` handles (everything except the fall-through
`OtherReason` case). -/
def handledResponse : BackendResponse → Prop
  | .raised _ => True
  | .result r => r.reason ≠ ResultReason.OtherReason

/-- A concrete app state used to exercise the translation worker on an
empty queue: pipeline running, one worker pair alive, nothing queued. -/
def idleRunningApp : AppState :=
  { running := true
    audio_queue := []
    inputLanguage := "en-US"
    outputLanguage := "es-ES"
    deviceIndex := some 0
    labelText := some "Translation will appear here"
    statusText := "Status: Running"
    statusStyle := "color: green;"
    threadsSpawned := 1 }

/-- A concrete previously-started, stopped app state with two stale
frames still in the queue. -/
def staleQueueApp : AppState :=
  { running := false
    audio_queue := [[(1 : ℚ)], [(2 : ℚ), 3]]
    inputLanguage := "en-US"
    outputLanguage := "es-ES"
    deviceIndex := some 0
    labelText := some "hola"
    statusText := "Status: Stopped"
    statusStyle := "color: red;"
    threadsSpawned := 1 }

/-- Claim C1 (code bug): the request `translate_speech` configures for
the backend is constant in the dequeued frame — two distinct chunks
yield the identical request, whose audio source is the default
microphone (`use_default_microphone=True`, src/main.py:301); only the
two language tags from the configuration reach the request.  The claim
that the frame's conditioned samples are part of the request is the
evident intent (the whole capture→condition→enqueue path feeds
`translate_speech` its `audio_chunk` argument), but the code never uses
that argument. -/
theorem C1_request_ignores_frame_samples :
    (∀ inL outL : String, ∀ c1 c2 : Chunk,
      buildRequest inL outL c1 = buildRequest inL outL c2) ∧
    buildRequest "en-US" "es-ES" [(1 : ℚ)]
      = buildRequest "en-US" "es-ES" [(2 : ℚ), 3] ∧
    (buildRequest "en-US" "es-ES" [(1 : ℚ)]).useDefaultMicrophone = true ∧
    (buildRequest "en-US" "es-ES" [(1 : ℚ)]).speechRecognitionLanguage = "en-US" ∧
    (buildRequest "en-US" "es-ES" [(1 : ℚ)]).targetLanguage = "es-ES" :=
  ⟨fun _ _ _ _ => rfl, rfl, rfl, rfl, rfl⟩

/-- Counterexample to claim C2: the queue is created as `queue.Queue()`
with `maxsize = 0`, i.e. unbounded.  With 16 frames already buffered
(the upper end of the capacity the claim's source suggests), a further
push does not block and the queue grows to 17 frames, so no fixed small
capacity bound is an invariant of pushes. -/
theorem C2_counterexample_queue_unbounded :
    queueMaxsize = 0 ∧
    ¬ putWouldBlock (List.replicate 16 ([] : Chunk)) ∧
    (queuePut (List.replicate 16 ([] : Chunk)) []).length = 17 := by
  refine ⟨rfl, ?_, by simp [queuePut]⟩
  simp [putWouldBlock, queueMaxsize]

/-- Claim C2 as amended: the frame queue is unbounded (`maxsize = 0`),
so a push never blocks the producer; every push appends the frame at
the back, the length grows by exactly one, and no buffered frame is
dropped. -/
theorem C2_amended_queue_unbounded_no_drop (q : List Chunk) (c : Chunk) :
    ¬ putWouldBlock q ∧
    (queuePut q c).length = q.length + 1 ∧
    (∀ x ∈ q, x ∈ queuePut q c) ∧
    c ∈ queuePut q c := by
  refine ⟨?_, by simp [queuePut], ?_, by simp [queuePut]⟩
  · simp [putWouldBlock, queueMaxsize]
  · intro x hx
    simp [queuePut, hx]

/-- Claim C3: a per-chunk backend failure (exception, cancellation, or
no recognized speech) is reported through the result path
(`update_translation` receives the populated failure message) and is
not fatal: the running flag is untouched, so the `while self.running`
loop guard still holds and the worker proceeds to the next frame;
exactly the dequeued frame leaves the queue. -/
theorem C3_backend_failure_nonfatal (s : AppState) (resp : BackendResponse)
    (hrun : s.running = true) (hq : s.audio_queue ≠ [])
    (hfail : isFailureResponse resp) :
    (translateStep s resp).running = true ∧
    (translateStep s resp).audio_queue = s.audio_queue.tail ∧
    (translateStep s resp).labelText
      = translate_speech s.inputLanguage s.outputLanguage resp ∧
    (translate_speech s.inputLanguage s.outputLanguage resp).isSome = true := by
  rcases hqe : s.audio_queue with _ | ⟨c, rest⟩
  · exact absurd hqe hq
  · refine ⟨?_, ?_, ?_, ?_⟩
    · simp [translateStep, update_translation, hqe, hrun]
    · simp [translateStep, update_translation, hqe]
    · simp [translateStep, update_translation, hqe]
    · cases resp with
      | raised msg => rfl
      | result r =>
        rcases hfail with h | h <;> simp [translate_speech, h]

/-- Witness for C3: a backend exception on a queued frame is reported
as the error string while the pipeline stays running. -/
theorem C3_backend_failure_nonfatal_witness :
    (translateStep { idleRunningApp with audio_queue := [[(1 : ℚ)]] }
        (BackendResponse.raised "connection reset")).running = true ∧
    (translateStep { idleRunningApp with audio_queue := [[(1 : ℚ)]] }
        (BackendResponse.raised "connection reset")).audio_queue = [] ∧
    (translateStep { idleRunningApp with audio_queue := [[(1 : ℚ)]] }
        (BackendResponse.raised "connection reset")).labelText
      = some "Error in speech recognition: connection reset" :=
  have h := C3_backend_failure_nonfatal
    { idleRunningApp with audio_queue := [[(1 : ℚ)]] }
    (BackendResponse.raised "connection reset") rfl (by decide) trivial
  ⟨h.1, h.2.1, h.2.2.1⟩

/-- Counterexample to claim C4: `start_translation` performs no state
check.  Called on a state that is already running with a live worker
pair, it is not rejected: it spawns a second worker pair (the thread
counter increases) and rewrites the lifecycle fields. -/
theorem C4_counterexample_start_while_running :
    idleRunningApp.running = true ∧
    idleRunningApp.threadsSpawned = 1 ∧
    (start_translation idleRunningApp).threadsSpawned = 2 ∧
    (start_translation idleRunningApp).running = true :=
  ⟨rfl, rfl, rfl, rfl⟩

/-- Claim C4 as amended: `start_translation` is accepted in every
state.  It unconditionally sets the running flag, rewrites the status
label, and creates and starts a fresh pair of capture and translation
threads — also when the pipeline is already running. -/
theorem C4_amended_start_unconditional (s : AppState) :
    (start_translation s).running = true ∧
    (start_translation s).threadsSpawned = s.threadsSpawned + 1 ∧
    (start_translation s).statusText = "Status: Running" ∧
    (start_translation s).audio_queue = s.audio_queue :=
  ⟨rfl, rfl, rfl, rfl⟩

/-- Counterexample to claim C5: on an app that has never been started,
`stop_translation` is not a no-op success — after clearing the running
flag it raises `AttributeError`, because the thread attributes it joins
were never created. -/
theorem C5_counterexample_stop_never_started :
    stop_translation (initState "" "" none)
      = Except.error
          ("AttributeError: TranslatorApp object has no attribute capture_thread",
            initState "" "" none) := by
  rfl

/-- Claim C5 as amended: once the pipeline has been started at least
once, `stop_translation` on an already-stopped state is an idempotent
no-op: the joins on the finished threads return, and every field is
rewritten to the value it already has. -/
theorem C5_amended_stop_idempotent_after_start (s : AppState)
    (hth : s.threadsSpawned ≠ 0) (hrun : s.running = false)
    (htxt : s.statusText = "Status: Stopped")
    (hsty : s.statusStyle = "color: red;") :
    stop_translation s = Except.ok s := by
  cases s
  simp_all [stop_translation]

/-- Witness for the amended C5 on a concrete stopped, previously
started app. -/
theorem C5_amended_stop_idempotent_witness :
    stop_translation staleQueueApp = Except.ok staleQueueApp :=
  C5_amended_stop_idempotent_after_start staleQueueApp (by decide) rfl rfl rfl

/-- Counterexample to claim C6: with both language tags empty and no
device selected, `start_translation` does not fail synchronously with
any configuration error — it sets the running flag and spawns the
worker pair, so the pipeline does not remain stopped. -/
theorem C6_counterexample_start_without_validation :
    (initState "" "" none).inputLanguage = "" ∧
    (initState "" "" none).outputLanguage = "" ∧
    (initState "" "" none).deviceIndex = none ∧
    (start_translation (initState "" "" none)).running = true ∧
    (start_translation (initState "" "" none)).threadsSpawned = 1 :=
  ⟨rfl, rfl, rfl, rfl, rfl⟩

/-- Claim C6 as amended: `start_translation` validates nothing — for
every configuration, including empty language tags, it sets the running
flag and spawns the worker pair; a missing device id is detected only
afterwards, inside the already-spawned capture worker, which raises a
generic error and terminates while the pipeline stays running. -/
theorem C6_amended_no_start_validation (s : AppState) :
    (start_translation s).running = true ∧
    (start_translation s).threadsSpawned = s.threadsSpawned + 1 ∧
    (s.deviceIndex = none →
      capture_device_check (start_translation s)
        = Except.error "Selected audio device not found.") := by
  refine ⟨rfl, rfl, fun h => ?_⟩
  simp [capture_device_check, start_translation, h]

/-- Witness for the amended C6: starting with no device selected spawns
the workers and the capture worker then fails its device check. -/
theorem C6_amended_no_start_validation_witness :
    (start_translation (initState "" "" none)).running = true ∧
    capture_device_check (start_translation (initState "" "" none))
      = Except.error "Selected audio device not found." :=
  ⟨(C6_amended_no_start_validation (initState "" "" none)).1,
    (C6_amended_no_start_validation (initState "" "" none)).2.2 rfl⟩

/-- Counterexample to claim C8: a backend result whose reason is none
of the three handled cases (for example `RecognizedSpeech`, modelled by
`OtherReason`) makes the if/elif chain of `translate_speech` fall off
the end of the function: Python `None` is returned, so no outcome
variant is populated for that frame. -/
theorem C8_counterexample_unhandled_reason :
    translate_speech "en-US" "es-ES"
      (BackendResponse.result
        { reason := ResultReason.OtherReason
          text := ""
          translations := fun _ => ""
          cancellationReason := "" }) = none := rfl

/-- Claim C8 as amended: the backend response is mapped to a populated
outcome precisely when its reason is one of the three handled cases or
the call raised; each handled case yields its specific single outcome,
and whatever `translate_speech` returns (including `none` for an
unhandled reason) is handed to `update_translation` exactly once for
the frame. -/
theorem C8_amended_outcome_mapping (s : AppState) (resp : BackendResponse)
    (hq : s.audio_queue ≠ []) :
    ((translate_speech s.inputLanguage s.outputLanguage resp).isSome ↔
      handledResponse resp) ∧
    (translateStep s resp).labelText
      = translate_speech s.inputLanguage s.outputLanguage resp ∧
    (∀ r, resp = BackendResponse.result r → r.reason = ResultReason.TranslatedSpeech →
      translate_speech s.inputLanguage s.outputLanguage resp
        = some (r.translations s.outputLanguage)) ∧
    (∀ r, resp = BackendResponse.result r → r.reason = ResultReason.NoMatch →
      translate_speech s.inputLanguage s.outputLanguage resp
        = some "No speech could be recognized.") ∧
    (∀ r, resp = BackendResponse.result r → r.reason = ResultReason.Canceled →
      translate_speech s.inputLanguage s.outputLanguage resp
        = some ("Speech Recognition canceled: " ++ r.cancellationReason)) ∧
    (∀ msg, resp = BackendResponse.raised msg →
      translate_speech s.inputLanguage s.outputLanguage resp
        = some ("Error in speech recognition: " ++ msg)) := by
  rcases hqe : s.audio_queue with _ | ⟨c, rest⟩
  · exact absurd hqe hq
  · refine ⟨?_, ?_, ?_, ?_, ?_, ?_⟩
    · cases resp with
      | raised msg => simp [translate_speech, handledResponse]
      | result r =>
        cases hr : r.reason <;>
          simp [translate_speech, handledResponse, hr]
    · simp [translateStep, update_translation, hqe]
    · rintro r rfl hr
      simp [translate_speech, hr]
    · rintro r rfl hr
      simp [translate_speech, hr]
    · rintro r rfl hr
      simp [translate_speech, hr]
    · rintro msg rfl
      simp [translate_speech]

/-- Witness for the amended C8: a `NoMatch` response on a queued frame
delivers exactly the no-speech outcome to the result path. -/
theorem C8_amended_outcome_mapping_witness :
    (translateStep { idleRunningApp with audio_queue := [[(2 : ℚ)]] }
        (BackendResponse.result
          { reason := ResultReason.NoMatch
            text := ""
            translations := fun _ => ""
            cancellationReason := "" })).labelText
      = some "No speech could be recognized." := by
  have h := C8_amended_outcome_mapping
    { idleRunningApp with audio_queue := [[(2 : ℚ)]] }
    (BackendResponse.result
      { reason := ResultReason.NoMatch
        text := ""
        translations := fun _ => ""
        cancellationReason := "" })
    (by decide)
  rw [h.2.1]
  exact h.2.2.2.1 _ rfl rfl

/-- Counterexample to claim C9: with the pipeline running and the queue
empty, one whole iteration of the translation loop completes with the
state unchanged — nothing is popped and no suspension point is reached,
so control immediately re-tests `self.running` and re-polls
`self.audio_queue.empty()`; iterating the loop body any number of times
leaves the state fixed.  The worker spins instead of blocking. -/
theorem C9_counterexample_busy_poll :
    idleRunningApp.running = true ∧
    idleRunningApp.audio_queue = [] ∧
    translateStep idleRunningApp (BackendResponse.raised "offline")
      = idleRunningApp ∧
    (fun s => translateStep s (BackendResponse.raised "offline"))^[1000]
        idleRunningApp
      = idleRunningApp := by
  refine ⟨rfl, rfl, rfl, Function.iterate_fixed ?_ 1000⟩
  rfl

/-- Claim C9 as amended: the translation worker busy-polls.  When the
queue is empty the loop body is a no-op that returns straight to the
loop guard (the blocking `get` is reached only when the poll saw a
non-empty queue), so an empty-queue iteration changes nothing. -/
theorem C9_amended_empty_queue_poll (s : AppState) (resp : BackendResponse)
    (hq : s.audio_queue = []) :
    translateStep s resp = s := by
  simp [translateStep, hq]

/-- Witness for the amended C9 on the concrete running, empty-queue
app. -/
theorem C9_amended_empty_queue_poll_witness :
    translateStep idleRunningApp (BackendResponse.raised "timeout")
      = idleRunningApp :=
  C9_amended_empty_queue_poll idleRunningApp (BackendResponse.raised "timeout") rfl

/-- Claim C10: `stop_translation` leaves the queue contents untouched;
the same queue object survives into the next `start_translation`, so
after a restart any chunk captured is appended behind the stale frames
and the translation worker consumes the stale frames (popping from the
front) before any new ones. -/
theorem C10_stop_preserves_stale_queue (s : AppState)
    (h : s.threadsSpawned ≠ 0) :
    ∃ t, stop_translation s = Except.ok t ∧
      t.audio_queue = s.audio_queue ∧
      (start_translation t).audio_queue = s.audio_queue ∧
      (∀ raw bandpass,
        (capture_iteration (start_translation t) raw bandpass).audio_queue
          = s.audio_queue ++ [normalize_audio (bandpass raw)]) ∧
      (∀ resp, s.audio_queue ≠ [] →
        (translateStep (start_translation t) resp).audio_queue
          = s.audio_queue.tail) := by
  refine ⟨{ s with
              running := false
              statusText := "Status: Stopped"
              statusStyle := "color: red;" },
    ?_, rfl, rfl, fun raw bandpass => rfl, fun resp hne => ?_⟩
  · simp [stop_translation, h]
  · rcases hqe : s.audio_queue with _ | ⟨c, rest⟩
    · exact absurd hqe hne
    · simp [translateStep, update_translation, start_translation, hqe]

/-- Witness for C10 on a concrete stopped app with two stale frames:
stop keeps them, restart keeps them, a new capture lands behind them,
and the first pop after restart removes the older stale frame. -/
theorem C10_stop_preserves_stale_queue_witness :
    ∃ t, stop_translation staleQueueApp = Except.ok t ∧
      t.audio_queue = staleQueueApp.audio_queue ∧
      (start_translation t).audio_queue = staleQueueApp.audio_queue ∧
      (∀ raw bandpass,
        (capture_iteration (start_translation t) raw bandpass).audio_queue
          = staleQueueApp.audio_queue ++ [normalize_audio (bandpass raw)]) ∧
      (∀ resp, staleQueueApp.audio_queue ≠ [] →
        (translateStep (start_translation t) resp).audio_queue
          = staleQueueApp.audio_queue.tail) :=
  C10_stop_preserves_stale_queue staleQueueApp (by decide)
